import Mathlib

/-!
Verification of `healtcheck_VMware.py` against its specification.

The script is a single-pass pipeline: enumerate virtual machines, filter
the powered-on ones whose name does not start with the reserved prefix
"vcls", collect five summary metrics per machine into flat records, load
them into a pandas DataFrame and compute five top-10 ranking tables.

Shallow embedding choices:
  * A machine object (`VM`) carries its name, its power state string, and
    the five summary sub-fields the script reads.  Each sub-field is an
    `Option Int`: `none` models a missing attribute, which Python's
    `getattr(obj, field, 0)` replaces by `0`.
  * `pd.DataFrame(list_of_dicts)` is modelled by `DataFrame.ofRecords`:
    the column set is the records' six keys when the list is non-empty and
    empty otherwise (an empty `pd.DataFrame([])` has no columns).
  * `df.sort_values(col, ascending=False)` raises `KeyError` when `col`
    is not a column; it is modelled in `Except String`.  The sort itself
    is modelled by `List.insertionSort` on the descending order of the
    column; pandas' default tie order is implementation-defined and the
    specification leaves it unspecified, so any stable determinization is
    faithful for the stated properties.
  * Python's `str.lower` / `str.startswith` are modelled character-wise
    on the string's character list (`lower`, `startswith` below); the
    names involved are ASCII, where the two languages agree.
-/

/-- Python `s.lower()`: lower-case every character. -/
def lower (s : String) : String :=
  ⟨s.data.map Char.toLower⟩

/-- Python `s.startswith(pre)`: `pre` is a prefix of `s`. -/
def startswith (s pre : String) : Bool :=
  pre.data.isPrefixOf s.data

/-- A virtual-machine object, restricted to the attributes the script
reads: `vm.name`, `vm.runtime.powerState`, and the five summary sub-fields
accessed through `getattr` with default `0` (hence `Option Int`). -/
structure VM where
  name : String
  powerState : String
  overallCpuLatency : Option Int
  memorySizeMB : Option Int
  guestMemoryUsage : Option Int
  overallNetworkUsage : Option Int
  overallDiskUsage : Option Int
deriving DecidableEq, Repr

/-- The flat record built by `recolectar_metricas`: the machine name plus
the five metric fields. -/
structure Record where
  name : String
  cpu_ready : Int
  ram_asignada : Int
  ram_consumida : Int
  net_usage : Int
  iops : Int
deriving DecidableEq, Repr

/-- Embedding of `filtrar_vms` (line 39 of the script): keep the machines
whose power state is the string `"poweredOn"` and whose lower-cased name
does not start with `"vcls"`. -/
def filtrar_vms (vms : List VM) : List VM :=
  vms.filter fun vm =>
    vm.powerState == "poweredOn" && !(startswith (lower vm.name) "vcls")

/-- Embedding of `recolectar_metricas` (lines 43-56): each metric is the
raw summary sub-field when present, `0` when absent (`getattr` default). -/
def recolectar_metricas (vm : VM) : Record :=
  { name := vm.name
    cpu_ready := vm.overallCpuLatency.getD 0
    ram_asignada := vm.memorySizeMB.getD 0
    ram_consumida := vm.guestMemoryUsage.getD 0
    net_usage := vm.overallNetworkUsage.getD 0
    iops := vm.overallDiskUsage.getD 0 }

/-- The six column names of the DataFrame built from the collected
records, in insertion order. -/
def recordColumns : List String :=
  ["name", "cpu_ready", "ram_asignada", "ram_consumida", "net_usage", "iops"]

/-- The five metric columns the script sorts by. -/
def metricColumns : List String :=
  ["cpu_ready", "ram_asignada", "ram_consumida", "net_usage", "iops"]

/-- Numeric value of a metric column of a record. -/
def metricCol (r : Record) (c : String) : Int :=
  if c = "cpu_ready" then r.cpu_ready
  else if c = "ram_asignada" then r.ram_asignada
  else if c = "ram_consumida" then r.ram_consumida
  else if c = "net_usage" then r.net_usage
  else if c = "iops" then r.iops
  else 0

/-- A pandas DataFrame holding the collected records: its column labels
and its rows. -/
structure DataFrame where
  columns : List String
  rows : List Record
deriving DecidableEq, Repr

/-- `pd.DataFrame(metricas)` for a list of six-key dicts: the columns are
the six keys when the list is non-empty; `pd.DataFrame([])` has no
columns. -/
def DataFrame.ofRecords (metricas : List Record) : DataFrame :=
  { columns := if metricas.isEmpty then [] else recordColumns
    rows := metricas }

/-- `df.sort_values(c, ascending=False)`: raises `KeyError` when `c` is
not a column, otherwise sorts the rows by column `c`, descending. -/
def DataFrame.sort_values (df : DataFrame) (c : String) :
    Except String DataFrame :=
  if c ∈ df.columns then
    Except.ok { df with
      rows := df.rows.insertionSort fun a b => metricCol b c ≤ metricCol a c }
  else
    Except.error ("KeyError: " ++ c)

/-- `df.head(n)`: the first `n` rows. -/
def DataFrame.head (df : DataFrame) (n : Nat) : DataFrame :=
  { df with rows := df.rows.take n }

/-- The ranking table for one metric column, as produced in `main`
(lines 66-72): build the DataFrame from the records, sort by the column
descending, take the first 10 rows. -/
def ranking (records : List Record) (c : String) :
    Except String (List Record) :=
  (DataFrame.ofRecords records).sort_values c |>.map fun df => (df.head 10).rows

/-- Observable outcome of one run of `main`: the lines printed to
standard output, the files written, and the five ranking tables (or the
error that aborted the ranking step). -/
structure RunOutput where
  stdout : List String
  filesWritten : List (String × String)
  tables : Except String
    (List Record × List Record × List Record × List Record × List Record)
deriving Repr

/-- Embedding of `main` (lines 60-74) applied to an inventory.  The
report-file name read at line 17 is passed in but — the report renderer
being unimplemented — never used, and no file is written. -/
def main_run (vms : List VM) (reporte_html : String) : RunOutput :=
  let vms_filtradas := filtrar_vms vms
  let line := "Se encontraron " ++ toString vms_filtradas.length
    ++ " VMs encendidas (sin vcls)"
  let metricas := vms_filtradas.map recolectar_metricas
  let df := DataFrame.ofRecords metricas
  let tables := do
    let top_cpu ← df.sort_values "cpu_ready"
    let top_ram_asignada ← df.sort_values "ram_asignada"
    let top_ram_consumida ← df.sort_values "ram_consumida"
    let top_net ← df.sort_values "net_usage"
    let top_iops ← df.sort_values "iops"
    return ((top_cpu.head 10).rows, (top_ram_asignada.head 10).rows,
      (top_ram_consumida.head 10).rows, (top_net.head 10).rows,
      (top_iops.head 10).rows)
  { stdout := [line], filesWritten := [], tables := tables }

/-- The four machines of the specification's worked example: a reserved
`vCLS` machine, two powered-on machines with CPU readings 50 and 10, and
a powered-off machine with reading 90.  Sub-fields the example does not
mention are absent (`none`). -/
def vCLS1 : VM := ⟨"vCLS-1", "poweredOn", none, none, none, none, none⟩

/-- Powered-on machine `Web01` with CPU reading 50. -/
def web01 : VM := ⟨"Web01", "poweredOn", some 50, none, none, none, none⟩

/-- Powered-off machine `Web02` with CPU reading 90. -/
def web02 : VM := ⟨"Web02", "poweredOff", some 90, none, none, none, none⟩

/-- Powered-on machine `DB01` with CPU reading 10. -/
def db01 : VM := ⟨"DB01", "poweredOn", some 10, none, none, none, none⟩

/-- The example inventory, in the order given by the specification. -/
def inventario_ejemplo : List VM := [vCLS1, web01, web02, db01]

/-- Claim C1: a machine is retained by the filter iff its power state is
`"poweredOn"` and its lower-cased name does not start with `"vcls"`; in
particular a machine with any other power state is excluded, and a
machine whose lower-cased name starts with `"vcls"` is excluded
regardless of power state. -/
theorem filtrar_vms_iff (vms : List VM) (vm : VM) :
    (vm ∈ filtrar_vms vms ↔
      vm ∈ vms ∧ vm.powerState = "poweredOn" ∧
        startswith (lower vm.name) "vcls" = false) ∧
    (vm.powerState ≠ "poweredOn" → vm ∉ filtrar_vms vms) ∧
    (startswith (lower vm.name) "vcls" = true → vm ∉ filtrar_vms vms) := by
  have hmem : vm ∈ filtrar_vms vms ↔
      vm ∈ vms ∧ vm.powerState = "poweredOn" ∧
        startswith (lower vm.name) "vcls" = false := by
    simp [filtrar_vms, List.mem_filter, Bool.and_eq_true, Bool.not_eq_true']
  refine ⟨hmem, ?_, ?_⟩
  · intro hps hin
    exact hps ((hmem.mp hin).2.1)
  · intro hpre hin
    have := (hmem.mp hin).2.2
    simp [hpre] at this

/-- Witness for C1 at a concrete inventory: a powered-off machine and a
`vCLS`-named machine are both excluded. -/
theorem filtrar_vms_iff_witness :
    (let web02 : VM := ⟨"Web02", "poweredOff", some 90, none, none, none, none⟩
     web02 ∉ filtrar_vms [web02]) ∧
    (let vcls : VM := ⟨"vCLS-1", "poweredOn", none, none, none, none, none⟩
     vcls ∉ filtrar_vms [vcls]) :=
  ⟨(filtrar_vms_iff [⟨"Web02", "poweredOff", some 90, none, none, none, none⟩]
      ⟨"Web02", "poweredOff", some 90, none, none, none, none⟩).2.1 (by decide),
   (filtrar_vms_iff [⟨"vCLS-1", "poweredOn", none, none, none, none, none⟩]
      ⟨"vCLS-1", "poweredOn", none, none, none, none, none⟩).2.2 (by decide)⟩

/-- Claim C3: the collector returns the flat six-field record whose name
is the machine's name and whose every metric field equals the raw summary
sub-field when present and `0` when absent; being a total function, it
never fails on a missing sub-field. -/
theorem recolectar_metricas_fields (vm : VM) :
    (recolectar_metricas vm).name = vm.name ∧
    (∀ v, vm.overallCpuLatency = some v →
      (recolectar_metricas vm).cpu_ready = v) ∧
    (vm.overallCpuLatency = none → (recolectar_metricas vm).cpu_ready = 0) ∧
    (∀ v, vm.memorySizeMB = some v →
      (recolectar_metricas vm).ram_asignada = v) ∧
    (vm.memorySizeMB = none → (recolectar_metricas vm).ram_asignada = 0) ∧
    (∀ v, vm.guestMemoryUsage = some v →
      (recolectar_metricas vm).ram_consumida = v) ∧
    (vm.guestMemoryUsage = none → (recolectar_metricas vm).ram_consumida = 0) ∧
    (∀ v, vm.overallNetworkUsage = some v →
      (recolectar_metricas vm).net_usage = v) ∧
    (vm.overallNetworkUsage = none → (recolectar_metricas vm).net_usage = 0) ∧
    (∀ v, vm.overallDiskUsage = some v →
      (recolectar_metricas vm).iops = v) ∧
    (vm.overallDiskUsage = none → (recolectar_metricas vm).iops = 0) := by
  refine ⟨rfl, ?_, ?_, ?_, ?_, ?_, ?_, ?_, ?_, ?_, ?_⟩ <;>
    intro h <;> first
      | (intro hv; simp [recolectar_metricas, hv])
      | simp [recolectar_metricas, h]

/-- Witness for C3 at a concrete machine with one present sub-field and
one absent one. -/
theorem recolectar_metricas_fields_witness :
    (recolectar_metricas ⟨"Web01", "poweredOn", some 50, none, none, none,
      none⟩).cpu_ready = 50 ∧
    (recolectar_metricas ⟨"Web01", "poweredOn", some 50, none, none, none,
      none⟩).ram_asignada = 0 :=
  ⟨(recolectar_metricas_fields
      ⟨"Web01", "poweredOn", some 50, none, none, none, none⟩).2.1 50 rfl,
   (recolectar_metricas_fields
      ⟨"Web01", "poweredOn", some 50, none, none, none, none⟩).2.2.2.2.1 rfl⟩

/-- Claim C6: the filter's output is a sublist of its input — possibly
empty, with the retained machines in their original relative order. -/
theorem filtrar_vms_sublist (vms : List VM) :
    List.Sublist (filtrar_vms vms) vms :=
  List.filter_sublist vms

/-- Claim C9: the filter is idempotent — filtering an already filtered
list changes nothing. -/
theorem filtrar_vms_idempotent (vms : List VM) :
    filtrar_vms (filtrar_vms vms) = filtrar_vms vms := by
  unfold filtrar_vms
  rw [List.filter_filter]
  exact List.filter_congr fun vm _ => by
    cases h : (vm.powerState == "poweredOn" &&
      !(startswith (lower vm.name) "vcls")) <;> simp [h]

/-- Claim C2 counterexample: for the empty record list (zero collected
records, fewer than 10), no ranking table is produced at all — the sort
raises a key error because the empty DataFrame has no columns — so the
table cannot contain all records as the claim asserts for every list. -/
theorem ranking_empty_error :
    ranking ([] : List Record) "cpu_ready" =
      Except.error "KeyError: cpu_ready" := rfl

/-- Claim C2 (amended to non-empty record lists): for every non-empty
list of collected records and each of the five metric columns, the
ranking table exists, has at most 10 records, is a permutation of the
whole list when it has fewer than 10 records, and is ordered
non-increasing by that metric. -/
theorem ranking_bounded_sorted (records : List Record) (h : records ≠ [])
    (c : String) (hc : c ∈ metricColumns) :
    ∃ t, ranking records c = Except.ok t ∧ t.length ≤ 10 ∧
      (records.length < 10 → t.Perm records) ∧
      t.Pairwise fun a b => metricCol b c ≤ metricCol a c := by
  haveI : IsTrans Record fun a b => metricCol b c ≤ metricCol a c :=
    ⟨fun _ _ _ hab hbd => le_trans hbd hab⟩
  haveI : IsTotal Record fun a b => metricCol b c ≤ metricCol a c :=
    ⟨fun a b => le_total (metricCol b c) (metricCol a c)⟩
  have hrc : c ∈ recordColumns := by
    simp only [metricColumns, List.mem_cons, List.not_mem_nil, or_false] at hc
    simp only [recordColumns, List.mem_cons]
    tauto
  have hrank : ranking records c = Except.ok
      ((records.insertionSort fun a b => metricCol b c ≤ metricCol a c).take
        10) := by
    simp [ranking, DataFrame.sort_values, DataFrame.head,
      DataFrame.ofRecords, h, hrc, Except.map]
  refine ⟨_, hrank, List.length_take_le 10 _, ?_, ?_⟩
  · intro hlen
    have hperm := List.perm_insertionSort
      (fun a b => metricCol b c ≤ metricCol a c) records
    have hle : (records.insertionSort
        fun a b => metricCol b c ≤ metricCol a c).length ≤ 10 := by
      rw [hperm.length_eq]
      exact Nat.le_of_lt hlen
    rw [List.take_of_length_le hle]
    exact hperm
  · exact (List.sorted_insertionSort _ records).sublist
      (List.take_sublist 10 _)

/-- Witness for the amended C2 at a concrete one-record list. -/
theorem ranking_bounded_sorted_witness :
    ∃ t, ranking [recolectar_metricas web01] "cpu_ready" = Except.ok t ∧
      t.length ≤ 10 ∧
      ([recolectar_metricas web01].length < 10 →
        t.Perm [recolectar_metricas web01]) ∧
      t.Pairwise fun a b =>
        metricCol b "cpu_ready" ≤ metricCol a "cpu_ready" :=
  ranking_bounded_sorted [recolectar_metricas web01] (by simp) "cpu_ready"
    (by simp [metricColumns])

/-- Claim C4 counterexample: on the empty inventory (zero machines pass
the filter) the run's ranking step fails with a key error instead of
producing five empty tables — the program does not complete normally. -/
theorem main_run_empty_error :
    (main_run [] "reporte_vmware.html").tables =
      Except.error "KeyError: cpu_ready" := rfl

/-- Claim C4 (amended): when zero machines pass the filter, the program
prints the matched-machine count 0 to standard output, but then the
ranking step fails with a key error on the first metric column — the
empty DataFrame has no columns — so no ranking tables are produced and
the run does not complete normally. -/
theorem main_run_no_match (vms : List VM) (reporte : String)
    (h : filtrar_vms vms = []) :
    (main_run vms reporte).stdout =
      ["Se encontraron 0 VMs encendidas (sin vcls)"] ∧
    (main_run vms reporte).tables =
      Except.error "KeyError: cpu_ready" := by
  constructor <;> (simp only [main_run, h]; rfl)

/-- Witness for the amended C4 at the inventory holding only the
powered-off machine `Web02`, which the filter removes. -/
theorem main_run_no_match_witness :
    (main_run [web02] "reporte_vmware.html").stdout =
      ["Se encontraron 0 VMs encendidas (sin vcls)"] ∧
    (main_run [web02] "reporte_vmware.html").tables =
      Except.error "KeyError: cpu_ready" :=
  main_run_no_match [web02] "reporte_vmware.html" (by decide)

/-- Claim C5: on the example inventory [vCLS-1(on), Web01(on, 50),
Web02(off, 90), DB01(on, 10)] the filter retains exactly Web01 and DB01
in that order, and the CPU ranking table is [Web01(50), DB01(10)] (the
other four tables hold the same two records, all their metrics being 0).
-/
theorem ejemplo_inventario_spec :
    filtrar_vms inventario_ejemplo = [web01, db01] ∧
    recolectar_metricas web01 = ⟨"Web01", 50, 0, 0, 0, 0⟩ ∧
    recolectar_metricas db01 = ⟨"DB01", 10, 0, 0, 0, 0⟩ ∧
    (main_run inventario_ejemplo "reporte_vmware.html").tables =
      Except.ok ([⟨"Web01", 50, 0, 0, 0, 0⟩, ⟨"DB01", 10, 0, 0, 0, 0⟩],
        [⟨"Web01", 50, 0, 0, 0, 0⟩, ⟨"DB01", 10, 0, 0, 0, 0⟩],
        [⟨"Web01", 50, 0, 0, 0, 0⟩, ⟨"DB01", 10, 0, 0, 0, 0⟩],
        [⟨"Web01", 50, 0, 0, 0, 0⟩, ⟨"DB01", 10, 0, 0, 0, 0⟩],
        [⟨"Web01", 50, 0, 0, 0, 0⟩, ⟨"DB01", 10, 0, 0, 0, 0⟩]) :=
  ⟨by decide, by decide, by decide, rfl⟩

/-- Claim C7: metric collection produces exactly one record per retained
machine, in the order of the filtered list, each record's name being the
machine's name. -/
theorem metricas_records (vms : List VM) :
    ((filtrar_vms vms).map recolectar_metricas).length
      = (filtrar_vms vms).length ∧
    ((filtrar_vms vms).map recolectar_metricas).map Record.name
      = (filtrar_vms vms).map VM.name := by
  refine ⟨by simp, ?_⟩
  rw [List.map_map]
  rfl

/-- Claim C10: the report-file name has no effect on any observable of
the run — two runs on the same inventory differing only in that input
have identical filtered sets, records, tables and printed output — and no
file is ever written. -/
theorem reporte_html_no_effect (vms : List VM) (r1 r2 : String) :
    main_run vms r1 = main_run vms r2 ∧
    (main_run vms r1).filesWritten = [] :=
  ⟨rfl, rfl⟩
